import Mathlib

/-!
Verification of the mack markdown-to-Slack-blocks library: a shallow
embedding of `src/validation.ts`, `src/slack.ts` and `src/errors.ts`.

JavaScript strings are modelled as their sequence of UTF-16 code units
(`JStr := List Nat`), so that surrogate-pair boundary behaviour of
`safeTruncate` is captured faithfully.  Error messages are modelled as
Lean `String`s built with the same concatenation templates the source
uses.  Fallible functions return `Except MackError α`.
-/

namespace Mack

/-- A JavaScript string, as its sequence of UTF-16 code units. -/
abbrev JStr := List Nat

/-- UTF-16 encoding of a Unicode scalar value: one code unit for BMP
characters, a surrogate pair for the rest. -/
def encodeUnits (c : Nat) : List Nat :=
  if c < 0x10000 then [c]
  else [0xd800 + (c - 0x10000) / 0x400, 0xdc00 + (c - 0x10000) % 0x400]

/-- Lean string literal to JavaScript string (UTF-16 code units). -/
def jstr (s : String) : JStr :=
  s.data.flatMap (fun c => encodeUnits c.toNat)

/-- Is the code unit a UTF-16 high (leading) surrogate?  Mirrors
`lastChar >= 0xd800 && lastChar <= 0xdbff` in `safeTruncate`. -/
def isHighSurrogate (c : Nat) : Bool :=
  decide (0xd800 ≤ c ∧ c ≤ 0xdbff)

/-- Is the code unit a UTF-16 low (trailing) surrogate? -/
def isLowSurrogate (c : Nat) : Bool :=
  decide (0xdc00 ≤ c ∧ c ≤ 0xdfff)

/-- Does the string end in a high surrogate?  This is the check
`safeTruncate` performs on `truncated.charCodeAt(truncated.length - 1)`
(an empty string yields `NaN`, for which the check is false). -/
def endsHigh (t : JStr) : Bool :=
  match t.getLast? with
  | some c => isHighSurrogate c
  | none => false

/-- `safeTruncate` from `src/validation.ts`: truncate `text` to at most
`maxLength` code units (`text.slice(0, maxLength)`), dropping a dangling
high surrogate left at the cut (`truncated.slice(0, -1)`). -/
def safeTruncate (text : JStr) (maxLength : Nat) : JStr :=
  if text.length ≤ maxLength then
    text
  else if endsHigh (text.take maxLength) then
    (text.take maxLength).dropLast
  else
    text.take maxLength

/-- The tail-repair step of `safeTruncate`, named for the proofs. -/
def trimHigh (t : JStr) : JStr :=
  if endsHigh t then t.dropLast else t

/-- The string does not end in the middle of a surrogate pair: its last
code unit, if any, is not a high surrogate. -/
def lastNotHigh (t : JStr) : Bool :=
  match t.getLast? with
  | some c => !isHighSurrogate c
  | none => true

/-- A well-formed UTF-16 code-unit sequence: no lone surrogates; every
high surrogate is immediately followed by a low surrogate. -/
inductive WellFormed : JStr → Prop where
  | nil : WellFormed []
  | bmp : ∀ (c : Nat) (rest : JStr), isHighSurrogate c = false →
      isLowSurrogate c = false → WellFormed rest → WellFormed (c :: rest)
  | pair : ∀ (c d : Nat) (rest : JStr), isHighSurrogate c = true →
      isLowSurrogate d = true → WellFormed rest → WellFormed (c :: d :: rest)

/-- Error taxonomy from `src/errors.ts`: `ValidationError`, `ParseError`,
`BlockLimitError` (block count and ceiling) and `SecurityError`. -/
inductive MackError where
  | validation (message : String)
  | parseError (message : String) (tokenType : Option String)
  | blockLimit (blockCount : Nat) (maxBlocks : Nat)
  | security (message : String)
deriving DecidableEq

/-- The `message` each error class passes to its base class; in
particular `BlockLimitError`'s message template from `src/errors.ts`. -/
def MackError.message : MackError → String
  | .validation m => m
  | .parseError m _ => m
  | .blockLimit blockCount maxBlocks =>
      "Block limit exceeded: " ++ toString blockCount ++
        " blocks exceeds maximum of " ++ toString maxBlocks
  | .security m => m

/-- Is the outcome a thrown `ValidationError`? -/
def isValidationErr {α : Type} : Except MackError α → Bool
  | .error (.validation _) => true
  | _ => false

/-- Is the outcome a thrown `BlockLimitError`? -/
def isBlockLimitErr {α : Type} : Except MackError α → Bool
  | .error (.blockLimit _ _) => true
  | _ => false

/-- `msg` mentions `sub`: `sub` occurs contiguously inside `msg`. -/
def mentions (sub msg : String) : Prop :=
  ∃ pre post, msg = pre ++ (sub ++ post)

def MAX_INPUT_SIZE : Nat := 1000000

def MAX_RECURSION_DEPTH : Nat := 50

def BLOCK_LIMIT : Nat := 50

/-- A JavaScript runtime value passed where a string is expected:
`null`, `undefined`, a string, or a value of some other runtime type
(carrying its `typeof` name). -/
inductive JSInput where
  | null
  | undefined
  | str (s : JStr)
  | nonString (typeName : String)
deriving DecidableEq

/-- `validateInput` from `src/validation.ts`. -/
def validateInput : JSInput → Except MackError Unit
  | .null => .error (.validation "Input cannot be null or undefined")
  | .undefined => .error (.validation "Input cannot be null or undefined")
  | .nonString typeName =>
      .error (.validation ("Expected string input, received " ++ typeName))
  | .str input =>
      if input.length = 0 then
        .error (.validation "Input cannot be empty")
      else if input.length > MAX_INPUT_SIZE then
        .error (.validation ("Input size " ++ toString input.length ++
          " exceeds maximum of " ++ toString MAX_INPUT_SIZE ++ " bytes"))
      else
        .ok ()

/-- The punctuation code units of the regex character class
`[a-zA-Z0-9-._~:/?#[\]@!$&'()*+,;=]` in `validateUrl`:
`- . _ ~ : / ? # [ ] @ ! $ & ' ( ) * + , ; =`. -/
def urlSymbolChars : List Nat :=
  [45, 46, 95, 126, 58, 47, 63, 35, 91, 93, 64, 33, 36, 38,
   39, 40, 41, 42, 43, 44, 59, 61]

/-- One code unit of the regex character class: a letter, a digit or one
of the listed punctuation characters. -/
def okUrlChar (c : Nat) : Bool :=
  decide ((97 ≤ c ∧ c ≤ 122) ∨ (65 ≤ c ∧ c ≤ 90) ∨ (48 ≤ c ∧ c ≤ 57)) ||
    urlSymbolChars.contains c

/-- The test `/^https?:\/\/[a-zA-Z0-9-._~:/?#[\]@!$&'()*+,;=]+$/.test(url)`:
the scheme prefix followed by one or more characters of the class. -/
def httpRegexTest (url : JStr) : Bool :=
  if (jstr "http://").isPrefixOf url then
    !(url.drop 7).isEmpty && (url.drop 7).all okUrlChar
  else if (jstr "https://").isPrefixOf url then
    !(url.drop 8).isEmpty && (url.drop 8).all okUrlChar
  else
    false

/-- `validateUrl` from `src/validation.ts`; `none` stands for a `null` or
`undefined` argument. -/
def validateUrl : Option JStr → Bool
  | none => false
  | some url =>
      if url.isEmpty then false
      else if (jstr "data:").isPrefixOf url then
        (jstr "data:image/").isPrefixOf url
      else if (jstr "/").isPrefixOf url || (jstr ".").isPrefixOf url then
        true
      else
        httpRegexTest url

/-- `validateBlockCount` from `src/validation.ts`; in the source
`maxBlocks` defaults to `BLOCK_LIMIT = 50`. -/
def validateBlockCount (blockCount maxBlocks : Nat) : Except MackError Unit :=
  if blockCount > maxBlocks then
    .error (.validation ("Block count " ++ toString blockCount ++
      " exceeds maximum of " ++ toString maxBlocks ++ " blocks"))
  else
    .ok ()

/-- `validateRecursionDepth` from `src/validation.ts`. -/
def validateRecursionDepth (depth : Nat) : Except MackError Unit :=
  if depth > MAX_RECURSION_DEPTH then
    .error (.validation ("Recursion depth " ++ toString depth ++
      " exceeds maximum of " ++ toString MAX_RECURSION_DEPTH))
  else
    .ok ()

def MAX_TEXT_LENGTH : Nat := 3000

def MAX_HEADER_LENGTH : Nat := 150

def MAX_IMAGE_TITLE_LENGTH : Nat := 2000

def MAX_IMAGE_ALT_TEXT_LENGTH : Nat := 2000

def MAX_VIDEO_TITLE_LENGTH : Nat := 200

def MAX_VIDEO_DESCRIPTION_LENGTH : Nat := 200

def MAX_VIDEO_AUTHOR_NAME_LENGTH : Nat := 50

/-- A `plain_text`/`mrkdwn` text object inside a block. -/
structure TextObject where
  type : String
  text : JStr
  emoji : Option Bool
deriving DecidableEq

structure SectionBlock where
  type : String
  text : TextObject
deriving DecidableEq

structure HeaderBlock where
  type : String
  text : TextObject
deriving DecidableEq

structure ImageBlock where
  type : String
  image_url : JStr
  alt_text : JStr
  title : Option TextObject
deriving DecidableEq

/-- `section` from `src/slack.ts` (the runtime `typeof` guard cannot fire
in the typed embedding). -/
def «section» (text : JStr) : SectionBlock :=
  { type := "section"
    text := { type := "mrkdwn", text := safeTruncate text MAX_TEXT_LENGTH,
              emoji := none } }

/-- `header` from `src/slack.ts`. -/
def header (text : JStr) : HeaderBlock :=
  { type := "header"
    text := { type := "plain_text", text := safeTruncate text MAX_HEADER_LENGTH,
              emoji := none } }

/-- The `isAbsoluteUrl` test used by `image` and `video` in `src/slack.ts`. -/
def isAbsoluteUrl (url : JStr) : Bool :=
  (jstr "http://").isPrefixOf url || (jstr "https://").isPrefixOf url ||
    (jstr "data:").isPrefixOf url

/-- The `title ? { type: 'plain_text', text: safeTruncate(...) } : undefined`
expression of `image`; a falsy (absent or empty) title yields no object. -/
def imageTitle : Option JStr → Option TextObject
  | some t =>
      if t.isEmpty then none
      else some { type := "plain_text"
                  text := safeTruncate t MAX_IMAGE_TITLE_LENGTH
                  emoji := none }
  | none => none

/-- `image` from `src/slack.ts`. -/
def image (url altText : JStr) (title : Option JStr) :
    Except MackError ImageBlock :=
  if url.isEmpty then
    .error (.validation "Image URL must be a non-empty string")
  else if isAbsoluteUrl url && !(validateUrl (some url)) then
    .error (.validation "Invalid image URL")
  else
    .ok { type := "image"
          image_url := url
          alt_text := safeTruncate altText MAX_IMAGE_ALT_TEXT_LENGTH
          title := imageTitle title }

structure VideoBlockOptions where
  altText : JStr
  title : JStr
  thumbnailUrl : JStr
  videoUrl : JStr
  authorName : Option JStr
  description : Option JStr
  providerIconUrl : Option JStr
  providerName : Option JStr
  titleUrl : Option JStr
deriving DecidableEq

structure VideoBlock where
  type : String
  alt_text : JStr
  title : TextObject
  thumbnail_url : JStr
  video_url : JStr
  author_name : Option JStr
  description : Option TextObject
  provider_icon_url : Option JStr
  provider_name : Option JStr
  title_url : Option JStr
deriving DecidableEq

/-- The local `isValidUrl` closure inside `video`: a non-absolute URL is
accepted, an absolute one must pass `validateUrl`. -/
def isValidVideoUrl (url : JStr) : Bool :=
  !(isAbsoluteUrl url) || validateUrl (some url)

/-- The guard `options.x && !isValidUrl(options.x)` used by `video` for
its optional `titleUrl`/`providerIconUrl` fields: checked only when the
field is truthy (present and non-empty). -/
def optionalUrlInvalid : Option JStr → Bool
  | some u => !u.isEmpty && !(isValidVideoUrl u)
  | none => false

/-- The `options.authorName ? safeTruncate(...) : undefined` expression
of `video`. -/
def videoAuthorName : Option JStr → Option JStr
  | some a =>
      if a.isEmpty then none
      else some (safeTruncate a MAX_VIDEO_AUTHOR_NAME_LENGTH)
  | none => none

/-- The `options.description ? { ... } : undefined` expression of `video`. -/
def videoDescription : Option JStr → Option TextObject
  | some d =>
      if d.isEmpty then none
      else some { type := "plain_text"
                  text := safeTruncate d MAX_VIDEO_DESCRIPTION_LENGTH
                  emoji := some true }
  | none => none

/-- `video` from `src/slack.ts`. -/
def video (options : VideoBlockOptions) : Except MackError VideoBlock :=
  if options.altText.isEmpty then
    .error (.validation "Video alt text must be a non-empty string")
  else if options.title.isEmpty then
    .error (.validation "Video title must be a non-empty string")
  else if options.thumbnailUrl.isEmpty then
    .error (.validation "Video thumbnail URL must be a non-empty string")
  else if options.videoUrl.isEmpty then
    .error (.validation "Video URL must be a non-empty string")
  else if !(isValidVideoUrl options.thumbnailUrl) then
    .error (.validation "Invalid thumbnail URL")
  else if !(isValidVideoUrl options.videoUrl) then
    .error (.validation "Invalid video URL")
  else if optionalUrlInvalid options.titleUrl then
    .error (.validation "Invalid title URL")
  else if optionalUrlInvalid options.providerIconUrl then
    .error (.validation "Invalid provider icon URL")
  else
    .ok { type := "video"
          alt_text := safeTruncate options.altText MAX_IMAGE_ALT_TEXT_LENGTH
          title := { type := "plain_text"
                     text := safeTruncate options.title MAX_VIDEO_TITLE_LENGTH
                     emoji := some true }
          thumbnail_url := options.thumbnailUrl
          video_url := options.videoUrl
          author_name := videoAuthorName options.authorName
          description := videoDescription options.description
          provider_icon_url := options.providerIconUrl
          provider_name := options.providerName
          title_url := options.titleUrl }

structure RichTextSectionElement where
  type : String
  text : JStr
deriving DecidableEq

structure RichTextElement where
  type : String
  elements : List RichTextSectionElement
deriving DecidableEq

/-- A table cell at runtime: a `type` tag and the optional `text` and
`elements` fields (absent = `undefined`). -/
structure TableCell where
  type : String
  text : Option JStr
  elements : Option (List RichTextElement)
deriving DecidableEq

abbrev TableRow := List TableCell

/-- A column setting at runtime; `align` is any string or absent. -/
structure ColumnSetting where
  align : Option String
  is_wrapped : Option Bool
deriving DecidableEq

structure TableBlock where
  type : String
  rows : List TableRow
  column_settings : Option (List ColumnSetting)
deriving DecidableEq

def MAX_TABLE_ROWS : Nat := 100

def MAX_TABLE_CELLS_PER_ROW : Nat := 20

def MAX_COLUMN_SETTINGS : Nat := 20

/-- The per-cell validation of `table` at row `i`, column `j` (the
`!cell || typeof cell !== 'object'` guard cannot fire in the typed
embedding). -/
def checkCell (i j : Nat) (cell : TableCell) : Except MackError Unit :=
  if cell.type ≠ "raw_text" ∧ cell.type ≠ "rich_text" then
    .error (.validation ("Table cell at row " ++ toString i ++ ", column " ++
      toString j ++ " must have type raw_text or rich_text"))
  else if cell.type = "raw_text" ∧ cell.text = none then
    .error (.validation ("Table cell at row " ++ toString i ++ ", column " ++
      toString j ++ " with type raw_text must have a text property"))
  else if cell.type = "rich_text" ∧ cell.elements = none then
    .error (.validation ("Table cell at row " ++ toString i ++ ", column " ++
      toString j ++ " with type rich_text must have an elements array"))
  else
    .ok ()

/-- The inner `for` loop of `table` over the cells of row `i`. -/
def checkCellList (i : Nat) (j : Nat) : List TableCell → Except MackError Unit
  | [] => .ok ()
  | cell :: rest =>
      match checkCell i j cell with
      | .error e => .error e
      | .ok _ => checkCellList i (j + 1) rest

/-- The outer `for` loop of `table` over the rows, starting at row `i`
(the `!Array.isArray(row)` guard cannot fire in the typed embedding). -/
def checkRowList (i : Nat) : List TableRow → Except MackError Unit
  | [] => .ok ()
  | row :: rest =>
      if row.length > MAX_TABLE_CELLS_PER_ROW then
        .error (.validation ("Table row " ++ toString i ++
          " cannot have more than " ++ toString MAX_TABLE_CELLS_PER_ROW ++
          " cells"))
      else
        match checkCellList i 0 row with
        | .error e => .error e
        | .ok _ => checkRowList (i + 1) rest

/-- The per-setting validation of `table`: a truthy (present, non-empty)
`align` must be `left`, `center` or `right`. -/
def checkSetting (setting : ColumnSetting) : Except MackError Unit :=
  match setting.align with
  | some a =>
      if a ≠ "" ∧ a ≠ "left" ∧ a ≠ "center" ∧ a ≠ "right" then
        .error (.validation "Column alignment must be left, center, or right")
      else
        .ok ()
  | none => .ok ()

/-- The `for ... of columnSettings` loop of `table`. -/
def checkSettingList : List ColumnSetting → Except MackError Unit
  | [] => .ok ()
  | s :: rest =>
      match checkSetting s with
      | .error e => .error e
      | .ok _ => checkSettingList rest

/-- The `if (columnSettings) { ... }` section of `table`: when settings
are provided, the count ceiling and the per-setting loop run. -/
def checkColumnSettings :
    Option (List ColumnSetting) → Except MackError Unit
  | some settings =>
      if settings.length > MAX_COLUMN_SETTINGS then
        .error (.validation ("Cannot have more than " ++
          toString MAX_COLUMN_SETTINGS ++ " column settings"))
      else
        checkSettingList settings
  | none => .ok ()

/-- `table` from `src/slack.ts` (the `!Array.isArray(rows)` and
`!Array.isArray(columnSettings)` guards cannot fire in the typed
embedding). -/
def table (rows : List TableRow)
    (columnSettings : Option (List ColumnSetting)) :
    Except MackError TableBlock :=
  if rows.isEmpty then
    .error (.validation "Table must have at least one row")
  else if rows.length > MAX_TABLE_ROWS then
    .error (.validation ("Table cannot have more than " ++
      toString MAX_TABLE_ROWS ++ " rows"))
  else
    match checkRowList 0 rows with
    | .error e => .error e
    | .ok _ =>
        match checkColumnSettings columnSettings with
        | .error e => .error e
        | .ok _ =>
            .ok { type := "table", rows := rows
                  column_settings := columnSettings }

/-- Spec-side cell condition: the cell's tag matches its declared shape —
a `raw_text` cell carries a `text` field, a `rich_text` cell carries an
`elements` array (the code does not require it to be non-empty). -/
def cellOk (cell : TableCell) : Bool :=
  decide ((cell.type = "raw_text" ∧ cell.text ≠ none) ∨
    (cell.type = "rich_text" ∧ cell.elements ≠ none))

/-- Spec-side row condition: at most 20 cells, every cell well-shaped. -/
def rowOk (row : TableRow) : Bool :=
  decide (row.length ≤ MAX_TABLE_CELLS_PER_ROW) && row.all cellOk

/-- Spec-side column-setting condition: a present, non-empty `align`
must be `left`, `center` or `right`. -/
def settingOk (s : ColumnSetting) : Bool :=
  match s.align with
  | none => true
  | some a => decide (a = "" ∨ a = "left" ∨ a = "center" ∨ a = "right")

/-- Spec-side condition on the optional column settings: at most 20 of
them, each well-formed. -/
def settingsOk : Option (List ColumnSetting) → Bool
  | none => true
  | some l => decide (l.length ≤ MAX_COLUMN_SETTINGS) && l.all settingOk

/-- Spec-side success condition of `table`. -/
def tableOk (rows : List TableRow)
    (columnSettings : Option (List ColumnSetting)) : Bool :=
  !rows.isEmpty && decide (rows.length ≤ MAX_TABLE_ROWS) && rows.all rowOk &&
    settingsOk columnSettings

/-- `n` repetitions of the emoji U+1F600, a 2-code-unit (surrogate-pair)
character, as a JavaScript string. -/
def emojiRun : Nat → JStr
  | 0 => []
  | n + 1 => jstr "😀" ++ emojiRun n

lemma high_ne_low (c : Nat) (h : isLowSurrogate c = true) :
    isHighSurrogate c = false := by
  unfold isLowSurrogate at h
  unfold isHighSurrogate
  simp only [decide_eq_true_eq] at h
  simp only [decide_eq_false_iff_not, not_and, not_le]
  omega

lemma endsHigh_cons_of_ne_nil (c : Nat) (t : JStr) (h : t ≠ []) :
    endsHigh (c :: t) = endsHigh t := by
  cases t with
  | nil => exact absurd rfl h
  | cons x xs => unfold endsHigh; rw [List.getLast?_cons_cons]

lemma lastNotHigh_cons_of_ne_nil (c : Nat) (t : JStr) (h : t ≠ []) :
    lastNotHigh (c :: t) = lastNotHigh t := by
  cases t with
  | nil => exact absurd rfl h
  | cons x xs => unfold lastNotHigh; rw [List.getLast?_cons_cons]

lemma lastNotHigh_singleton (c : Nat) :
    lastNotHigh [c] = !isHighSurrogate c := by
  unfold lastNotHigh; rw [List.getLast?_singleton]

lemma lastNotHigh_two (c d : Nat) :
    lastNotHigh [c, d] = !isHighSurrogate d := by
  rw [lastNotHigh_cons_of_ne_nil c [d] (by simp), lastNotHigh_singleton]

lemma endsHigh_singleton (c : Nat) : endsHigh [c] = isHighSurrogate c := rfl

lemma endsHigh_two (c d : Nat) : endsHigh [c, d] = isHighSurrogate d := rfl

lemma trimHigh_cons (c : Nat) (t : JStr) (h : t ≠ []) :
    trimHigh (c :: t) = c :: trimHigh t := by
  unfold trimHigh
  rw [endsHigh_cons_of_ne_nil c t h]
  by_cases hE : endsHigh t = true
  · rw [if_pos hE, if_pos hE]
    cases t with
    | nil => exact absurd rfl h
    | cons x xs => rw [List.dropLast_cons₂]
  · rw [if_neg hE, if_neg hE]

/-- In a well-formed string the last code unit is never a high surrogate. -/
lemma wellFormed_lastNotHigh {t : JStr} (hwf : WellFormed t) :
    lastNotHigh t = true := by
  induction hwf with
  | nil => rfl
  | bmp c rest hnh hnl hr ih =>
      cases hrest : rest with
      | nil => rw [lastNotHigh_singleton, hnh]; rfl
      | cons x xs =>
          rw [← hrest, lastNotHigh_cons_of_ne_nil c rest (by rw [hrest]; simp)]
          exact ih
  | pair c d rest hh hl hr ih =>
      cases hrest : rest with
      | nil => rw [lastNotHigh_two, high_ne_low d hl]; rfl
      | cons x xs =>
          rw [← hrest, lastNotHigh_cons_of_ne_nil c (d :: rest) (by simp),
            lastNotHigh_cons_of_ne_nil d rest (by rw [hrest]; simp)]
          exact ih

/-- Truncating a well-formed string at any point and repairing a dangling
high surrogate leaves a string that does not end in a high surrogate. -/
lemma lastNotHigh_trimHigh_take {l : JStr} (hwf : WellFormed l) :
    ∀ n : Nat, lastNotHigh (trimHigh (l.take n)) = true := by
  induction hwf with
  | nil => intro n; rw [List.take_nil]; rfl
  | bmp c rest hnh hnl hr ih =>
      intro n
      cases n with
      | zero => rfl
      | succ m =>
          rw [List.take_succ_cons]
          by_cases h : rest.take m = []
          · rw [h]
            unfold trimHigh
            rw [endsHigh_singleton, hnh, if_neg (by simp),
              lastNotHigh_singleton, hnh]
            rfl
          · rw [trimHigh_cons c _ h]
            by_cases h2 : trimHigh (rest.take m) = []
            · rw [h2, lastNotHigh_singleton, hnh]; rfl
            · rw [lastNotHigh_cons_of_ne_nil c _ h2]
              exact ih m
  | pair c d rest hh hl hr ih =>
      intro n
      cases n with
      | zero => rfl
      | succ m =>
          cases m with
          | zero =>
              rw [List.take_succ_cons, List.take_zero]
              unfold trimHigh
              rw [endsHigh_singleton, hh, if_pos rfl]
              rfl
          | succ k =>
              rw [List.take_succ_cons, List.take_succ_cons]
              by_cases h : rest.take k = []
              · rw [h]
                unfold trimHigh
                rw [endsHigh_two, high_ne_low d hl, if_neg (by simp),
                  lastNotHigh_two, high_ne_low d hl]
                rfl
              · rw [trimHigh_cons c (d :: rest.take k) (by simp),
                  trimHigh_cons d _ h]
                by_cases h2 : trimHigh (rest.take k) = []
                · rw [h2, lastNotHigh_two, high_ne_low d hl]; rfl
                · rw [lastNotHigh_cons_of_ne_nil c _ (by simp),
                    lastNotHigh_cons_of_ne_nil d _ h2]
                  exact ih k

lemma safeTruncate_of_le {text : JStr} {n : Nat} (h : text.length ≤ n) :
    safeTruncate text n = text := by
  unfold safeTruncate; rw [if_pos h]

lemma safeTruncate_of_gt {text : JStr} {n : Nat} (h : n < text.length) :
    safeTruncate text n = trimHigh (text.take n) := by
  unfold safeTruncate trimHigh
  rw [if_neg (by omega)]

lemma safeTruncate_length_le (text : JStr) (n : Nat) :
    (safeTruncate text n).length ≤ n := by
  by_cases h : text.length ≤ n
  · rw [safeTruncate_of_le h]; exact h
  · rw [safeTruncate_of_gt (by omega)]
    unfold trimHigh
    by_cases hE : endsHigh (text.take n)
    · rw [if_pos hE, List.length_dropLast, List.length_take]; omega
    · rw [if_neg hE, List.length_take]; omega

lemma safeTruncate_lastNotHigh {text : JStr} (hwf : WellFormed text)
    (n : Nat) : lastNotHigh (safeTruncate text n) = true := by
  by_cases h : text.length ≤ n
  · rw [safeTruncate_of_le h]; exact wellFormed_lastNotHigh hwf
  · rw [safeTruncate_of_gt (by omega)]
    exact lastNotHigh_trimHigh_take hwf n

lemma safeTruncate_isPrefix (text : JStr) (n : Nat) :
    ∃ t, safeTruncate text n ++ t = text := by
  by_cases h : text.length ≤ n
  · exact ⟨[], by rw [safeTruncate_of_le h, List.append_nil]⟩
  · rw [safeTruncate_of_gt (by omega)]
    unfold trimHigh
    by_cases hE : endsHigh (text.take n)
    · rw [if_pos hE, List.dropLast_eq_take, List.take_take]
      exact ⟨_, List.take_append_drop _ text⟩
    · rw [if_neg hE]
      exact ⟨_, List.take_append_drop n text⟩

lemma safeTruncate_length_truncated {text : JStr} {n : Nat}
    (h : n < text.length) :
    (safeTruncate text n).length = n ∨ (safeTruncate text n).length = n - 1 := by
  rw [safeTruncate_of_gt h]
  unfold trimHigh
  by_cases hE : endsHigh (text.take n)
  · right; rw [if_pos hE, List.length_dropLast, List.length_take]; omega
  · left; rw [if_neg hE, List.length_take]; omega

lemma safeTruncate_idem (text : JStr) (n : Nat) :
    safeTruncate (safeTruncate text n) n = safeTruncate text n :=
  safeTruncate_of_le (safeTruncate_length_le text n)

lemma str_nil_append (s : String) : "" ++ s = s := by
  cases s; rfl

lemma glue_exceeds (X : String) :
    " exceeds maximum of " ++ X = " " ++ ("exceeds maximum" ++ (" of " ++ X)) := by
  rw [← String.append_assoc, ← String.append_assoc]
  rfl

lemma glue_blockcount (X : String) :
    "Block count " ++ X = "Block count" ++ (" " ++ X) := by
  rw [← String.append_assoc]
  rfl

lemma mentions_exceeds (L M : String) :
    mentions "exceeds maximum"
      ("Input size " ++ L ++ " exceeds maximum of " ++ M ++ " bytes") := by
  refine ⟨"Input size " ++ (L ++ " "), " of " ++ (M ++ " bytes"), ?_⟩
  simp only [String.append_assoc]
  rw [glue_exceeds]

lemma checkCell_ok_iff (i j : Nat) (cell : TableCell) :
    checkCell i j cell = .ok () ↔ cellOk cell = true := by
  unfold checkCell cellOk
  rw [decide_eq_true_eq]
  by_cases h1 : cell.type ≠ "raw_text" ∧ cell.type ≠ "rich_text"
  · rw [if_pos h1]
    constructor
    · intro h; exact absurd h (by simp)
    · rintro (⟨hc, _⟩ | ⟨hc, _⟩)
      · exact absurd hc h1.1
      · exact absurd hc h1.2
  · rw [if_neg h1]
    by_cases h2 : cell.type = "raw_text" ∧ cell.text = none
    · rw [if_pos h2]
      constructor
      · intro h; exact absurd h (by simp)
      · rintro (⟨_, ht⟩ | ⟨hc, _⟩)
        · exact (ht h2.2).elim
        · rw [h2.1] at hc; exact absurd hc (by decide)
    · rw [if_neg h2]
      by_cases h3 : cell.type = "rich_text" ∧ cell.elements = none
      · rw [if_pos h3]
        constructor
        · intro h; exact absurd h (by simp)
        · rintro (⟨hc, _⟩ | ⟨_, he⟩)
          · rw [h3.1] at hc; exact absurd hc (by decide)
          · exact (he h3.2).elim
      · rw [if_neg h3]
        constructor
        · intro _
          rcases not_and_or.mp h1 with h | h
          · have hc := not_not.mp h
            exact Or.inl ⟨hc, fun ht => h2 ⟨hc, ht⟩⟩
          · have hc := not_not.mp h
            exact Or.inr ⟨hc, fun he => h3 ⟨hc, he⟩⟩
        · intro _; rfl

lemma checkCell_shape (i j : Nat) (cell : TableCell) :
    checkCell i j cell = .ok () ∨
      ∃ m, checkCell i j cell = .error (.validation m) := by
  unfold checkCell
  by_cases h1 : cell.type ≠ "raw_text" ∧ cell.type ≠ "rich_text"
  · rw [if_pos h1]; exact Or.inr ⟨_, rfl⟩
  · rw [if_neg h1]
    by_cases h2 : cell.type = "raw_text" ∧ cell.text = none
    · rw [if_pos h2]; exact Or.inr ⟨_, rfl⟩
    · rw [if_neg h2]
      by_cases h3 : cell.type = "rich_text" ∧ cell.elements = none
      · rw [if_pos h3]; exact Or.inr ⟨_, rfl⟩
      · rw [if_neg h3]; exact Or.inl rfl

lemma checkCellList_ok_iff (i : Nat) (cells : List TableCell) :
    ∀ j, checkCellList i j cells = .ok () ↔ cells.all cellOk = true := by
  induction cells with
  | nil => intro j; simp [checkCellList]
  | cons c rest ih =>
      intro j
      unfold checkCellList
      rcases checkCell_shape i j c with h | ⟨m, hm⟩
      · rw [h]
        have hc : cellOk c = true := (checkCell_ok_iff i j c).mp h
        simp only [List.all_cons, hc, Bool.true_and]
        exact ih (j + 1)
      · rw [hm]
        have hc : cellOk c = false := by
          cases hb : cellOk c
          · rfl
          · have h' := (checkCell_ok_iff i j c).mpr hb
            rw [h'] at hm
            exact absurd hm (by simp)
        simp [List.all_cons, hc]

lemma checkCellList_shape (i : Nat) (cells : List TableCell) :
    ∀ j, checkCellList i j cells = .ok () ∨
      ∃ m, checkCellList i j cells = .error (.validation m) := by
  induction cells with
  | nil => intro j; exact Or.inl rfl
  | cons c rest ih =>
      intro j
      unfold checkCellList
      rcases checkCell_shape i j c with h | ⟨m, hm⟩
      · rw [h]; exact ih (j + 1)
      · rw [hm]; exact Or.inr ⟨m, rfl⟩

lemma checkRowList_ok_iff (rows : List TableRow) :
    ∀ i, checkRowList i rows = .ok () ↔ rows.all rowOk = true := by
  induction rows with
  | nil => intro i; simp [checkRowList]
  | cons row rest ih =>
      intro i
      unfold checkRowList
      by_cases hl : row.length > MAX_TABLE_CELLS_PER_ROW
      · rw [if_pos hl]
        have hrow : rowOk row = false := by
          unfold rowOk
          rw [decide_eq_false (by omega)]
          simp
        simp [List.all_cons, hrow]
      · rw [if_neg hl]
        rcases checkCellList_shape i row 0 with h | ⟨m, hm⟩
        · rw [h]
          have hcells : row.all cellOk = true := (checkCellList_ok_iff i row 0).mp h
          have hrow : rowOk row = true := by
            unfold rowOk
            rw [hcells, decide_eq_true (by omega)]
            rfl
          simp only [List.all_cons, hrow, Bool.true_and]
          exact ih (i + 1)
        · rw [hm]
          have hcells : row.all cellOk = false := by
            cases hb : row.all cellOk
            · rfl
            · have h' := (checkCellList_ok_iff i row 0).mpr hb
              rw [h'] at hm
              exact absurd hm (by simp)
          have hrow : rowOk row = false := by
            unfold rowOk
            rw [hcells]
            simp
          simp [List.all_cons, hrow]

lemma checkRowList_shape (rows : List TableRow) :
    ∀ i, checkRowList i rows = .ok () ∨
      ∃ m, checkRowList i rows = .error (.validation m) := by
  induction rows with
  | nil => intro i; exact Or.inl rfl
  | cons row rest ih =>
      intro i
      unfold checkRowList
      by_cases hl : row.length > MAX_TABLE_CELLS_PER_ROW
      · rw [if_pos hl]; exact Or.inr ⟨_, rfl⟩
      · rw [if_neg hl]
        rcases checkCellList_shape i row 0 with h | ⟨m, hm⟩
        · rw [h]; exact ih (i + 1)
        · rw [hm]; exact Or.inr ⟨m, rfl⟩

lemma checkSetting_some_def (a : String) (w : Option Bool) :
    checkSetting { align := some a, is_wrapped := w } =
      if a ≠ "" ∧ a ≠ "left" ∧ a ≠ "center" ∧ a ≠ "right" then
        Except.error
          (MackError.validation "Column alignment must be left, center, or right")
      else
        Except.ok () := rfl

lemma settingOk_some_def (a : String) (w : Option Bool) :
    settingOk { align := some a, is_wrapped := w } =
      decide (a = "" ∨ a = "left" ∨ a = "center" ∨ a = "right") := rfl

lemma checkSetting_ok_iff (s : ColumnSetting) :
    checkSetting s = .ok () ↔ settingOk s = true := by
  obtain ⟨align, w⟩ := s
  cases align with
  | none => simp [checkSetting, settingOk]
  | some a =>
      rw [checkSetting_some_def, settingOk_some_def, decide_eq_true_eq]
      by_cases h : a ≠ "" ∧ a ≠ "left" ∧ a ≠ "center" ∧ a ≠ "right"
      · rw [if_pos h]
        constructor
        · intro hx; exact absurd hx (by simp)
        · rintro (h0 | h0 | h0 | h0)
          · exact absurd h0 h.1
          · exact absurd h0 h.2.1
          · exact absurd h0 h.2.2.1
          · exact absurd h0 h.2.2.2
      · rw [if_neg h]
        constructor
        · intro _
          by_contra hno
          push_neg at hno
          exact h hno
        · intro _; rfl

lemma checkSetting_shape (s : ColumnSetting) :
    checkSetting s = .ok () ∨
      ∃ m, checkSetting s = .error (.validation m) := by
  obtain ⟨align, w⟩ := s
  cases align with
  | none => exact Or.inl rfl
  | some a =>
      rw [checkSetting_some_def]
      by_cases h : a ≠ "" ∧ a ≠ "left" ∧ a ≠ "center" ∧ a ≠ "right"
      · rw [if_pos h]; exact Or.inr ⟨_, rfl⟩
      · rw [if_neg h]; exact Or.inl rfl

lemma checkSettingList_ok_iff (settings : List ColumnSetting) :
    checkSettingList settings = .ok () ↔ settings.all settingOk = true := by
  induction settings with
  | nil => simp [checkSettingList]
  | cons s rest ih =>
      unfold checkSettingList
      rcases checkSetting_shape s with h | ⟨m, hm⟩
      · rw [h]
        have hs : settingOk s = true := (checkSetting_ok_iff s).mp h
        simp only [List.all_cons, hs, Bool.true_and]
        exact ih
      · rw [hm]
        have hs : settingOk s = false := by
          cases hb : settingOk s
          · rfl
          · have h' := (checkSetting_ok_iff s).mpr hb
            rw [h'] at hm
            exact absurd hm (by simp)
        simp [List.all_cons, hs]

lemma checkSettingList_shape (settings : List ColumnSetting) :
    checkSettingList settings = .ok () ∨
      ∃ m, checkSettingList settings = .error (.validation m) := by
  induction settings with
  | nil => exact Or.inl rfl
  | cons s rest ih =>
      unfold checkSettingList
      rcases checkSetting_shape s with h | ⟨m, hm⟩
      · rw [h]; exact ih
      · rw [hm]; exact Or.inr ⟨m, rfl⟩

lemma checkColumnSettings_ok_iff (cs : Option (List ColumnSetting)) :
    checkColumnSettings cs = .ok () ↔ settingsOk cs = true := by
  cases cs with
  | none => simp [checkColumnSettings, settingsOk]
  | some l =>
      show (if l.length > MAX_COLUMN_SETTINGS then
              Except.error (MackError.validation ("Cannot have more than " ++
                toString MAX_COLUMN_SETTINGS ++ " column settings"))
            else checkSettingList l) = Except.ok () ↔
        (decide (l.length ≤ MAX_COLUMN_SETTINGS) && l.all settingOk) = true
      by_cases h2 : l.length > MAX_COLUMN_SETTINGS
      · rw [if_pos h2, decide_eq_false (by omega)]
        simp
      · rw [if_neg h2, decide_eq_true (by omega)]
        simp only [Bool.true_and]
        exact checkSettingList_ok_iff l

lemma checkColumnSettings_shape (cs : Option (List ColumnSetting)) :
    checkColumnSettings cs = .ok () ∨
      ∃ m, checkColumnSettings cs = .error (.validation m) := by
  cases cs with
  | none => exact Or.inl rfl
  | some l =>
      show (if l.length > MAX_COLUMN_SETTINGS then
              Except.error (MackError.validation ("Cannot have more than " ++
                toString MAX_COLUMN_SETTINGS ++ " column settings"))
            else checkSettingList l) = Except.ok () ∨
        ∃ m, (if l.length > MAX_COLUMN_SETTINGS then
              Except.error (MackError.validation ("Cannot have more than " ++
                toString MAX_COLUMN_SETTINGS ++ " column settings"))
            else checkSettingList l) = Except.error (MackError.validation m)
      by_cases h2 : l.length > MAX_COLUMN_SETTINGS
      · rw [if_pos h2]; exact Or.inr ⟨_, rfl⟩
      · rw [if_neg h2]
        rcases checkSettingList_shape l with h3 | ⟨m3, hm3⟩
        · rw [h3]; exact Or.inl rfl
        · rw [hm3]; exact Or.inr ⟨m3, rfl⟩

lemma table_ok_iff (rows : List TableRow)
    (cs : Option (List ColumnSetting)) :
    table rows cs = .ok { type := "table", rows := rows, column_settings := cs }
      ↔ tableOk rows cs = true := by
  unfold table tableOk
  by_cases h0 : rows.isEmpty = true
  · rw [if_pos h0, h0]
    simp
  · have h0' : rows.isEmpty = false := by simpa using h0
    rw [if_neg h0]
    by_cases h1 : rows.length > MAX_TABLE_ROWS
    · rw [if_pos h1]
      have hd : decide (rows.length ≤ MAX_TABLE_ROWS) = false :=
        decide_eq_false (by omega)
      simp [h0', hd]
    · rw [if_neg h1]
      have hd1 : decide (rows.length ≤ MAX_TABLE_ROWS) = true :=
        decide_eq_true (by omega)
      rcases checkRowList_shape rows 0 with h | ⟨m, hm⟩
      · have hall : rows.all rowOk = true := (checkRowList_ok_iff rows 0).mp h
        rcases checkColumnSettings_shape cs with h4 | ⟨m4, hm4⟩
        · have hset : settingsOk cs = true :=
            (checkColumnSettings_ok_iff cs).mp h4
          rw [h, h4]
          simp [h0', hd1, hall, hset]
        · have hset : settingsOk cs = false := by
            cases hb : settingsOk cs
            · rfl
            · have h' := (checkColumnSettings_ok_iff cs).mpr hb
              rw [h'] at hm4
              exact absurd hm4 (by simp)
          rw [h, hm4]
          simp [h0', hd1, hall, hset]
      · have hall : rows.all rowOk = false := by
          cases hb : rows.all rowOk
          · rfl
          · have h' := (checkRowList_ok_iff rows 0).mpr hb
            rw [h'] at hm
            exact absurd hm (by simp)
        rw [hm]
        simp [h0', hall]

lemma table_shape (rows : List TableRow)
    (cs : Option (List ColumnSetting)) :
    table rows cs = .ok { type := "table", rows := rows, column_settings := cs }
      ∨ ∃ m, table rows cs = .error (.validation m) := by
  unfold table
  by_cases h0 : rows.isEmpty = true
  · rw [if_pos h0]; exact Or.inr ⟨_, rfl⟩
  · rw [if_neg h0]
    by_cases h1 : rows.length > MAX_TABLE_ROWS
    · rw [if_pos h1]; exact Or.inr ⟨_, rfl⟩
    · rw [if_neg h1]
      rcases checkRowList_shape rows 0 with h | ⟨m, hm⟩
      · rcases checkColumnSettings_shape cs with h4 | ⟨m4, hm4⟩
        · rw [h, h4]; exact Or.inl rfl
        · rw [h, hm4]; exact Or.inr ⟨m4, rfl⟩
      · rw [hm]; exact Or.inr ⟨m, rfl⟩

lemma mentions_blockcount (L M : String) :
    mentions "Block count"
      ("Block count " ++ L ++ " exceeds maximum of " ++ M ++ " blocks") := by
  refine ⟨"", " " ++ (L ++ (" exceeds maximum of " ++ (M ++ " blocks"))), ?_⟩
  rw [str_nil_append]
  simp only [String.append_assoc]
  rw [glue_blockcount]

lemma validateInput_ok_iff (input : JSInput) :
    validateInput input = .ok () ↔
      ∃ s, input = .str s ∧ 1 ≤ s.length ∧ s.length ≤ MAX_INPUT_SIZE := by
  cases input with
  | null => simp [validateInput]
  | undefined => simp [validateInput]
  | nonString t => simp [validateInput]
  | str s =>
      simp only [validateInput]
      by_cases h0 : s.length = 0
      · rw [if_pos h0]
        constructor
        · intro h; exact absurd h (by simp)
        · rintro ⟨s', hs', h1', h2'⟩
          rw [JSInput.str.injEq] at hs'
          subst hs'
          omega
      · rw [if_neg h0]
        by_cases h1 : s.length > MAX_INPUT_SIZE
        · rw [if_pos h1]
          constructor
          · intro h; exact absurd h (by simp)
          · rintro ⟨s', hs', h1', h2'⟩
            rw [JSInput.str.injEq] at hs'
            subst hs'
            omega
        · rw [if_neg h1]
          constructor
          · intro _; exact ⟨s, rfl, by omega, by omega⟩
          · intro _; rfl

lemma validateInput_shape (input : JSInput) :
    validateInput input = .ok () ∨
      isValidationErr (validateInput input) = true := by
  cases input with
  | null => exact Or.inr rfl
  | undefined => exact Or.inr rfl
  | nonString t => exact Or.inr rfl
  | str s =>
      simp only [validateInput]
      by_cases h0 : s.length = 0
      · rw [if_pos h0]; exact Or.inr rfl
      · rw [if_neg h0]
        by_cases h1 : s.length > MAX_INPUT_SIZE
        · rw [if_pos h1]; exact Or.inr rfl
        · rw [if_neg h1]; exact Or.inl rfl

lemma validateInput_overflow (s : JStr) (h : MAX_INPUT_SIZE < s.length) :
    validateInput (.str s) = .error (.validation ("Input size " ++
      toString s.length ++ " exceeds maximum of " ++
      toString MAX_INPUT_SIZE ++ " bytes")) := by
  simp only [validateInput]
  rw [if_neg (by omega), if_pos (by omega)]

lemma validateInput_ok_of (s : JStr) (h1 : s.length ≠ 0)
    (h2 : ¬s.length > MAX_INPUT_SIZE) : validateInput (.str s) = .ok () := by
  simp only [validateInput]
  rw [if_neg h1, if_neg h2]

lemma imageTitle_bound (title : Option JStr) (tt : TextObject)
    (h : imageTitle title = some tt) :
    tt.text.length ≤ MAX_IMAGE_TITLE_LENGTH := by
  cases title with
  | none => exact absurd h (by simp [imageTitle])
  | some t =>
      simp only [imageTitle] at h
      by_cases ht : t.isEmpty = true
      · rw [if_pos ht] at h; exact absurd h (by simp)
      · rw [if_neg ht] at h
        injection h with h2
        subst h2
        exact safeTruncate_length_le t MAX_IMAGE_TITLE_LENGTH

lemma videoDescription_bound (x : Option JStr) (d : TextObject)
    (h : videoDescription x = some d) :
    d.text.length ≤ MAX_VIDEO_DESCRIPTION_LENGTH := by
  cases x with
  | none => exact absurd h (by simp [videoDescription])
  | some s =>
      simp only [videoDescription] at h
      by_cases hs : s.isEmpty = true
      · rw [if_pos hs] at h; exact absurd h (by simp)
      · rw [if_neg hs] at h
        injection h with h2
        subst h2
        exact safeTruncate_length_le s MAX_VIDEO_DESCRIPTION_LENGTH

lemma videoAuthorName_bound (x : Option JStr) (a : JStr)
    (h : videoAuthorName x = some a) :
    a.length ≤ MAX_VIDEO_AUTHOR_NAME_LENGTH := by
  cases x with
  | none => exact absurd h (by simp [videoAuthorName])
  | some s =>
      simp only [videoAuthorName] at h
      by_cases hs : s.isEmpty = true
      · rw [if_pos hs] at h; exact absurd h (by simp)
      · rw [if_neg hs] at h
        injection h with h2
        subst h2
        exact safeTruncate_length_le s MAX_VIDEO_AUTHOR_NAME_LENGTH

lemma image_err_empty (altText : JStr) (title : Option JStr) :
    image [] altText title =
      .error (.validation "Image URL must be a non-empty string") := rfl

lemma image_err_invalid (url altText : JStr) (title : Option JStr)
    (h0 : url.isEmpty = false)
    (h1 : (isAbsoluteUrl url && !(validateUrl (some url))) = true) :
    image url altText title = .error (.validation "Invalid image URL") := by
  unfold image
  rw [if_neg (by simp [h0]), if_pos h1]

lemma image_ok (url altText : JStr) (title : Option JStr)
    (h0 : url.isEmpty = false)
    (h1 : (isAbsoluteUrl url && !(validateUrl (some url))) = false) :
    image url altText title =
      .ok { type := "image", image_url := url,
            alt_text := safeTruncate altText MAX_IMAGE_ALT_TEXT_LENGTH,
            title := imageTitle title } := by
  unfold image
  rw [if_neg (by simp [h0]), if_neg (by simp [h1])]

lemma image_ok_inv (url altText : JStr) (title : Option JStr)
    (b : ImageBlock) (h : image url altText title = .ok b) :
    b = { type := "image", image_url := url,
          alt_text := safeTruncate altText MAX_IMAGE_ALT_TEXT_LENGTH,
          title := imageTitle title } := by
  unfold image at h
  split at h
  · exact absurd h (by simp)
  split at h
  · exact absurd h (by simp)
  injection h with h2
  exact h2.symm

lemma video_ok_inv (options : VideoBlockOptions) (b : VideoBlock)
    (h : video options = .ok b) :
    b = { type := "video"
          alt_text := safeTruncate options.altText MAX_IMAGE_ALT_TEXT_LENGTH
          title := { type := "plain_text"
                     text := safeTruncate options.title MAX_VIDEO_TITLE_LENGTH
                     emoji := some true }
          thumbnail_url := options.thumbnailUrl
          video_url := options.videoUrl
          author_name := videoAuthorName options.authorName
          description := videoDescription options.description
          provider_icon_url := options.providerIconUrl
          provider_name := options.providerName
          title_url := options.titleUrl } := by
  unfold video at h
  split at h
  · exact absurd h (by simp)
  split at h
  · exact absurd h (by simp)
  split at h
  · exact absurd h (by simp)
  split at h
  · exact absurd h (by simp)
  split at h
  · exact absurd h (by simp)
  split at h
  · exact absurd h (by simp)
  split at h
  · exact absurd h (by simp)
  split at h
  · exact absurd h (by simp)
  injection h with h2
  exact h2.symm

lemma cons_isPrefixOf_cons (a b : Nat) (p s : JStr) :
    (a :: p).isPrefixOf (b :: s) = ((a == b) && p.isPrefixOf s) := rfl

lemma validateUrl_data (s : JStr)
    (h : (jstr "data:").isPrefixOf s = true) :
    validateUrl (some s) = (jstr "data:image/").isPrefixOf s := by
  have hne : s.isEmpty = false := by
    cases s with
    | nil => exact absurd h (by decide)
    | cons c rest => rfl
  simp only [validateUrl]
  rw [if_neg (by simp [hne]), if_pos h]

lemma validateUrl_rel (s : JStr)
    (h : (jstr "/").isPrefixOf s = true ∨ (jstr ".").isPrefixOf s = true) :
    validateUrl (some s) = true := by
  cases s with
  | nil => rcases h with h | h <;> exact absurd h (by decide)
  | cons c rest =>
      have hc : c = 47 ∨ c = 46 := by
        rcases h with h | h
        · left
          rw [show jstr "/" = [47] from rfl, cons_isPrefixOf_cons,
            List.isPrefixOf_nil_left, Bool.and_true, beq_iff_eq] at h
          omega
        · right
          rw [show jstr "." = [46] from rfl, cons_isPrefixOf_cons,
            List.isPrefixOf_nil_left, Bool.and_true, beq_iff_eq] at h
          omega
      have hdata : (jstr "data:").isPrefixOf (c :: rest) = false := by
        rw [show jstr "data:" = [100, 97, 116, 97, 58] from rfl,
          cons_isPrefixOf_cons]
        have h100 : (100 == c) = false := by
          rcases hc with rfl | rfl <;> rfl
        rw [h100, Bool.false_and]
      simp only [validateUrl]
      rw [if_neg (by simp), if_neg (by simp [hdata]),
        if_pos (by rcases h with h | h <;> simp [h])]

lemma validateUrl_other (s : JStr) (h0 : s ≠ [])
    (h1 : (jstr "data:").isPrefixOf s = false)
    (h2 : (jstr "/").isPrefixOf s = false)
    (h3 : (jstr ".").isPrefixOf s = false) :
    validateUrl (some s) = httpRegexTest s := by
  have hne : s.isEmpty = false := by
    cases s with
    | nil => exact absurd rfl h0
    | cons c rest => rfl
  simp only [validateUrl]
  rw [if_neg (by simp [hne]), if_neg (by simp [h1]),
    if_neg (by simp [h2, h3])]

lemma validateBlockCount_le (n m : Nat) (h : n ≤ m) :
    validateBlockCount n m = .ok () := by
  unfold validateBlockCount
  rw [if_neg (by omega)]

lemma validateRecursionDepth_le (d : Nat) (h : d ≤ MAX_RECURSION_DEPTH) :
    validateRecursionDepth d = .ok () := by
  unfold validateRecursionDepth
  rw [if_neg (by omega)]

lemma validateRecursionDepth_gt (d : Nat) (h : MAX_RECURSION_DEPTH < d) :
    validateRecursionDepth d = .error (.validation ("Recursion depth " ++
      toString d ++ " exceeds maximum of " ++
      toString MAX_RECURSION_DEPTH)) := by
  unfold validateRecursionDepth
  rw [if_pos (by omega)]

lemma validateBlockCount_gt (n m : Nat) (h : m < n) :
    validateBlockCount n m = .error (.validation ("Block count " ++
      toString n ++ " exceeds maximum of " ++ toString m ++ " blocks")) := by
  unfold validateBlockCount
  rw [if_pos (by omega)]

/-- C1: for every string and every ceiling, `safeTruncate` returns at most
`maxLength` code units; on well-formed UTF-16 input the result never ends
in the middle of a surrogate-pair character (its last unit is not a high
surrogate); input of length at most `maxLength` is returned unchanged; and
consequently the `section` builder's text field always has length at most
3000, in particular on a run of 2000 or more 2-code-unit emoji. -/
theorem claim_C1_safeTruncate_safe :
    (∀ (text : JStr) (maxLength : Nat),
        (safeTruncate text maxLength).length ≤ maxLength) ∧
    (∀ (text : JStr) (maxLength : Nat), WellFormed text →
        lastNotHigh (safeTruncate text maxLength) = true) ∧
    (∀ (text : JStr) (maxLength : Nat), text.length ≤ maxLength →
        safeTruncate text maxLength = text) ∧
    (∀ text : JStr, ((«section» text).text.text).length ≤ 3000) ∧
    (∀ n : Nat, 2000 ≤ n →
        ((«section» (emojiRun n)).text.text).length ≤ 3000) :=
  ⟨safeTruncate_length_le,
   fun _ maxLength hwf => safeTruncate_lastNotHigh hwf maxLength,
   fun _ _ h => safeTruncate_of_le h,
   fun text => safeTruncate_length_le text MAX_TEXT_LENGTH,
   fun n _ => safeTruncate_length_le (emojiRun n) MAX_TEXT_LENGTH⟩

/-- Witness for C1 at concrete inputs: `"a\u{1F600}"` truncated to 2 units,
`"ab"` kept whole under ceiling 5, and the 2000-emoji section text. -/
theorem claim_C1_witness :
    (WellFormed [97, 55357, 56832] ∧
      lastNotHigh (safeTruncate [97, 55357, 56832] 2) = true) ∧
    (([97, 98] : JStr).length ≤ 5 ∧ safeTruncate [97, 98] 5 = [97, 98]) ∧
    (2000 ≤ 2000 ∧
      ((«section» (emojiRun 2000)).text.text).length ≤ 3000) := by
  have hwf : WellFormed [97, 55357, 56832] :=
    WellFormed.bmp 97 _ (by decide) (by decide)
      (WellFormed.pair 55357 56832 [] (by decide) (by decide) WellFormed.nil)
  exact ⟨⟨hwf, claim_C1_safeTruncate_safe.2.1 _ 2 hwf⟩,
    ⟨by decide, claim_C1_safeTruncate_safe.2.2.1 _ 5 (by decide)⟩,
    ⟨by decide, claim_C1_safeTruncate_safe.2.2.2.2 2000 (by decide)⟩⟩

/-- C2 counterexample: the claim requires a `rich_text` cell to carry a
NON-EMPTY element sequence, but `table` only checks `Array.isArray`: a
`rich_text` cell with an empty `elements` array is accepted and the block
is returned, where the claim demands a `ValidationError`. -/
theorem claim_C2_counterexample :
    table [[{ type := "rich_text", text := none, elements := some [] }]]
        none =
      .ok { type := "table"
            rows := [[{ type := "rich_text", text := none,
                        elements := some [] }]]
            column_settings := none } := rfl

/-- C2 (amended): `table` returns `{type:'table', rows, column_settings}`
unchanged exactly when `rows` is a non-empty list of at most 100 rows,
every row has at most 20 cells, every cell's tag matches its declared
shape — a `raw_text` cell carries a text field and a `rich_text` cell
carries an elements array (possibly empty) — and any provided column
settings number at most 20 with every present non-empty align value in
{left, center, right}; in every other case it throws `ValidationError`. -/
theorem claim_C2_table_validation (rows : List TableRow)
    (cs : Option (List ColumnSetting)) :
    (tableOk rows cs = true →
      table rows cs =
        .ok { type := "table", rows := rows, column_settings := cs }) ∧
    (tableOk rows cs = false → isValidationErr (table rows cs) = true) := by
  constructor
  · exact fun h => (table_ok_iff rows cs).mpr h
  · intro h
    rcases table_shape rows cs with h1 | ⟨m, hm⟩
    · rw [(table_ok_iff rows cs).mp h1] at h
      exact absurd h (by simp)
    · rw [hm]; rfl

/-- Witness for C2 at concrete inputs: a valid one-cell table and the
empty rows list. -/
theorem claim_C2_witness :
    (tableOk [[{ type := "raw_text", text := some [97], elements := none }]]
        none = true ∧
      table [[{ type := "raw_text", text := some [97], elements := none }]]
          none =
        .ok { type := "table"
              rows := [[{ type := "raw_text", text := some [97],
                          elements := none }]]
              column_settings := none }) ∧
    (tableOk [] none = false ∧ isValidationErr (table [] none) = true) :=
  ⟨⟨by decide, (claim_C2_table_validation _ _).1 (by decide)⟩,
   ⟨by decide, (claim_C2_table_validation _ _).2 (by decide)⟩⟩

/-- C3: `validateInput` accepts exactly the strings of length 1 to
1,000,000; every rejection is a `ValidationError`; oversize strings get a
message mentioning "exceeds maximum"; the boundary lengths 1,000,000 and
1,000,001 are accepted and rejected respectively. -/
theorem claim_C3_input_bounds :
    (∀ input : JSInput,
        validateInput input = .ok () ↔
          ∃ s, input = .str s ∧ 1 ≤ s.length ∧ s.length ≤ MAX_INPUT_SIZE) ∧
    (∀ input : JSInput, validateInput input = .ok () ∨
        isValidationErr (validateInput input) = true) ∧
    (∀ s : JStr, MAX_INPUT_SIZE < s.length →
        ∃ msg, validateInput (.str s) = .error (.validation msg) ∧
          mentions "exceeds maximum" msg) ∧
    validateInput (.str (List.replicate MAX_INPUT_SIZE 97)) = .ok () ∧
    isValidationErr
      (validateInput (.str (List.replicate (MAX_INPUT_SIZE + 1) 97))) =
      true := by
  refine ⟨validateInput_ok_iff, validateInput_shape, ?_, ?_, ?_⟩
  · intro s h
    exact ⟨_, validateInput_overflow s h, mentions_exceeds _ _⟩
  · exact validateInput_ok_of _
      (by rw [List.length_replicate]; decide)
      (by rw [List.length_replicate]; omega)
  · rw [validateInput_overflow _ (by rw [List.length_replicate]; omega)]
    rfl

/-- Witness for C3 at a concrete oversize input. -/
theorem claim_C3_witness :
    MAX_INPUT_SIZE < (List.replicate (MAX_INPUT_SIZE + 1) 97 : JStr).length ∧
    ∃ msg, validateInput (.str (List.replicate (MAX_INPUT_SIZE + 1) 97)) =
        .error (.validation msg) ∧ mentions "exceeds maximum" msg := by
  have h : MAX_INPUT_SIZE <
      (List.replicate (MAX_INPUT_SIZE + 1) 97 : JStr).length := by
    rw [List.length_replicate]
    omega
  exact ⟨h, claim_C3_input_bounds.2.2.1 _ h⟩

/-- C4 counterexample: at block count 51 with ceiling 50 the check throws
the `ValidationError` class — not the taxonomy's block-limit variant
`BlockLimitError`, whose message template ("Block limit exceeded: ...")
is declared in `src/errors.ts` but unused here. -/
theorem claim_C4_counterexample :
    isBlockLimitErr (validateBlockCount 51 50) = false ∧
    validateBlockCount 51 50 =
      .error (.validation "Block count 51 exceeds maximum of 50 blocks") := by
  exact ⟨rfl, rfl⟩

/-- C4 (amended): `validateBlockCount` returns normally for every count
at most the ceiling and throws `ValidationError` — not `BlockLimitError` —
with a message mentioning "Block count" for every count above it; exactly
50 passes with the default ceiling 50 and 51 fails. -/
theorem claim_C4_block_count (n m : Nat) :
    (n ≤ m → validateBlockCount n m = .ok ()) ∧
    (m < n → ∃ msg, validateBlockCount n m = .error (.validation msg) ∧
        mentions "Block count" msg) ∧
    validateBlockCount BLOCK_LIMIT BLOCK_LIMIT = .ok () ∧
    isValidationErr (validateBlockCount (BLOCK_LIMIT + 1) BLOCK_LIMIT) =
      true := by
  refine ⟨validateBlockCount_le n m, ?_, rfl, rfl⟩
  · intro h
    exact ⟨_, validateBlockCount_gt n m h, mentions_blockcount _ _⟩

/-- Witness for C4 at the boundary counts 50 and 51. -/
theorem claim_C4_witness :
    (50 ≤ 50 ∧ validateBlockCount 50 50 = .ok ()) ∧
    (50 < 51 ∧ ∃ msg, validateBlockCount 51 50 = .error (.validation msg) ∧
        mentions "Block count" msg) :=
  ⟨⟨by decide, (claim_C4_block_count 50 50).1 (by decide)⟩,
   ⟨by decide, (claim_C4_block_count 51 50).2.1 (by decide)⟩⟩

/-- C5: `image` throws `ValidationError` exactly when the url is empty or
is an absolute (`http://`, `https://`, `data:`) url failing `validateUrl`;
on every other url it returns a block whose `image_url` equals the input
url unchanged. -/
theorem claim_C5_image_url_validation :
    (∀ (url altText : JStr) (title : Option JStr),
        (url = [] ∨ (isAbsoluteUrl url = true ∧
            validateUrl (some url) = false)) →
          ∃ m, image url altText title = .error (.validation m)) ∧
    (∀ (url altText : JStr) (title : Option JStr),
        url ≠ [] →
        (isAbsoluteUrl url = true → validateUrl (some url) = true) →
          ∃ b, image url altText title = .ok b ∧ b.image_url = url) := by
  constructor
  · intro url altText title h
    rcases h with rfl | ⟨habs, hval⟩
    · exact ⟨_, image_err_empty altText title⟩
    · have hne : url.isEmpty = false := by
        cases url with
        | nil => exact absurd habs (by decide)
        | cons c rest => rfl
      exact ⟨_, image_err_invalid url altText title hne
        (by simp [habs, hval])⟩
  · intro url altText title h0 himp
    have hne : url.isEmpty = false := by
      cases url with
      | nil => exact absurd rfl h0
      | cons c rest => rfl
    have hcond : (isAbsoluteUrl url && !(validateUrl (some url))) = false := by
      cases habs : isAbsoluteUrl url
      · rfl
      · simp [himp habs]
    exact ⟨_, image_ok url altText title hne hcond, rfl⟩

/-- Witness for C5: the relative url "/a" ([47, 97]) is accepted and kept,
the empty url is rejected. -/
theorem claim_C5_witness :
    (([] : JStr) = [] ∧
      ∃ m, image [] [97] none = .error (.validation m)) ∧
    (([47, 97] : JStr) ≠ [] ∧
      ∃ b, image [47, 97] [97] none = .ok b ∧ b.image_url = [47, 97]) :=
  ⟨⟨rfl, claim_C5_image_url_validation.1 [] [97] none (Or.inl rfl)⟩,
   ⟨by decide, claim_C5_image_url_validation.2 [47, 97] [97] none
      (by decide) (by decide)⟩⟩

/-- C6: `validateUrl` classifies as the spec's URL Validator: `null`/
`undefined` and the empty string are rejected; a `data:` url is accepted
exactly when it starts with `data:image/`; a url starting with `/` or `.`
is accepted; any other string is accepted exactly when it passes the
http(s) allowed-character pattern test. -/
theorem claim_C6_validateUrl_classification :
    validateUrl none = false ∧
    validateUrl (some []) = false ∧
    (∀ s : JStr, (jstr "data:").isPrefixOf s = true →
        validateUrl (some s) = (jstr "data:image/").isPrefixOf s) ∧
    (∀ s : JStr,
        (jstr "/").isPrefixOf s = true ∨ (jstr ".").isPrefixOf s = true →
        validateUrl (some s) = true) ∧
    (∀ s : JStr, s ≠ [] → (jstr "data:").isPrefixOf s = false →
        (jstr "/").isPrefixOf s = false → (jstr ".").isPrefixOf s = false →
        validateUrl (some s) = httpRegexTest s) :=
  ⟨rfl, rfl, validateUrl_data, validateUrl_rel, validateUrl_other⟩

/-- Witness for C6: a non-image data uri and an unrecognized-scheme url. -/
theorem claim_C6_witness :
    ((jstr "data:").isPrefixOf (jstr "data:text/html") = true ∧
      validateUrl (some (jstr "data:text/html")) =
        (jstr "data:image/").isPrefixOf (jstr "data:text/html")) ∧
    (jstr "ftp://x" ≠ [] ∧
      validateUrl (some (jstr "ftp://x")) = httpRegexTest (jstr "ftp://x")) :=
  ⟨⟨by decide, claim_C6_validateUrl_classification.2.2.1 _ (by decide)⟩,
   ⟨by decide, claim_C6_validateUrl_classification.2.2.2.2 _ (by decide)
      (by decide) (by decide) (by decide)⟩⟩

/-- C7: `validateRecursionDepth` returns normally for every depth at most
50 and throws `ValidationError` for every depth above 50; depth 40 passes
and depth 60 fails. -/
theorem claim_C7_recursion_depth (depth : Nat) :
    (depth ≤ MAX_RECURSION_DEPTH → validateRecursionDepth depth = .ok ()) ∧
    (MAX_RECURSION_DEPTH < depth →
      ∃ msg, validateRecursionDepth depth = .error (.validation msg)) ∧
    validateRecursionDepth 40 = .ok () ∧
    isValidationErr (validateRecursionDepth 60) = true := by
  refine ⟨?_, ?_, rfl, rfl⟩
  · exact validateRecursionDepth_le depth
  · intro h
    exact ⟨_, validateRecursionDepth_gt depth h⟩

/-- Witness for C7 at depths 40 and 60. -/
theorem claim_C7_witness :
    (40 ≤ MAX_RECURSION_DEPTH ∧ validateRecursionDepth 40 = .ok ()) ∧
    (MAX_RECURSION_DEPTH < 60 ∧
      ∃ msg, validateRecursionDepth 60 = .error (.validation msg)) :=
  ⟨⟨by decide, (claim_C7_recursion_depth 40).1 (by decide)⟩,
   ⟨by decide, (claim_C7_recursion_depth 60).2.1 (by decide)⟩⟩

/-- C8: every builder truncates its own text fields to its ceiling:
section text 3000, header text 150, image alt text 2000, image title
2000, video title 200, video description 200, video author name 50. -/
theorem claim_C8_builder_text_ceilings :
    (∀ text : JStr, ((«section» text).text.text).length ≤ 3000) ∧
    (∀ text : JStr, ((header text).text.text).length ≤ 150) ∧
    (∀ (url altText : JStr) (title : Option JStr) (b : ImageBlock),
        image url altText title = .ok b →
          b.alt_text.length ≤ 2000 ∧
          ∀ tt, b.title = some tt → tt.text.length ≤ 2000) ∧
    (∀ (options : VideoBlockOptions) (b : VideoBlock),
        video options = .ok b →
          b.title.text.length ≤ 200 ∧
          (∀ d, b.description = some d → d.text.length ≤ 200) ∧
          (∀ a, b.author_name = some a → a.length ≤ 50)) := by
  refine ⟨fun text => safeTruncate_length_le text MAX_TEXT_LENGTH,
    fun text => safeTruncate_length_le text MAX_HEADER_LENGTH, ?_, ?_⟩
  · intro url altText title b h
    have hb := image_ok_inv url altText title b h
    subst hb
    exact ⟨safeTruncate_length_le _ _,
      fun tt htt => imageTitle_bound title tt htt⟩
  · intro options b h
    have hb := video_ok_inv options b h
    subst hb
    exact ⟨safeTruncate_length_le _ _,
      fun d hd => videoDescription_bound _ d hd,
      fun a ha => videoAuthorName_bound _ a ha⟩

/-- Witness for C8 on a concrete image and a concrete video. -/
theorem claim_C8_witness :
    image [47] [97] none =
        .ok { type := "image", image_url := [47], alt_text := [97],
              title := none } ∧
    ({ type := "image", image_url := [47], alt_text := [97],
       title := none } : ImageBlock).alt_text.length ≤ 2000 ∧
    video { altText := [97], title := [98], thumbnailUrl := [47],
            videoUrl := [47], authorName := none, description := none,
            providerIconUrl := none, providerName := none,
            titleUrl := none } =
        .ok { type := "video", alt_text := [97],
              title := { type := "plain_text", text := [98],
                         emoji := some true },
              thumbnail_url := [47], video_url := [47],
              author_name := none, description := none,
              provider_icon_url := none, provider_name := none,
              title_url := none } ∧
    ({ type := "plain_text", text := [98],
       emoji := some true } : TextObject).text.length ≤ 200 := by
  have h1 : image [47] [97] none =
      .ok { type := "image", image_url := [47], alt_text := [97],
            title := none } := rfl
  have h2 : video
      { altText := [97], title := [98], thumbnailUrl := [47],
        videoUrl := [47], authorName := none, description := none,
        providerIconUrl := none, providerName := none, titleUrl := none } =
      .ok { type := "video", alt_text := [97],
            title := { type := "plain_text", text := [98],
                       emoji := some true },
            thumbnail_url := [47], video_url := [47],
            author_name := none, description := none,
            provider_icon_url := none, provider_name := none,
            title_url := none } := rfl
  exact ⟨h1, (claim_C8_builder_text_ceilings.2.2.1 [47] [97] none _ h1).1,
    h2, (claim_C8_builder_text_ceilings.2.2.2 _ _ h2).1⟩

/-- C9: `safeTruncate` always returns a prefix of its input; when it
truncates, the result has length `maxLength` or `maxLength - 1` (one
extra unit dropped only for a dangling high surrogate); and it is
idempotent at the same ceiling. -/
theorem claim_C9_safeTruncate_algebra :
    (∀ (text : JStr) (n : Nat), ∃ t, safeTruncate text n ++ t = text) ∧
    (∀ (text : JStr) (n : Nat), n < text.length →
        (safeTruncate text n).length = n ∨
          (safeTruncate text n).length = n - 1) ∧
    (∀ (text : JStr) (n : Nat),
        safeTruncate (safeTruncate text n) n = safeTruncate text n) :=
  ⟨safeTruncate_isPrefix,
   fun _ _ h => safeTruncate_length_truncated h,
   safeTruncate_idem⟩

/-- Witness for C9: truncating "abc" to 2 units. -/
theorem claim_C9_witness :
    2 < ([97, 98, 99] : JStr).length ∧
    ((safeTruncate [97, 98, 99] 2).length = 2 ∨
      (safeTruncate [97, 98, 99] 2).length = 2 - 1) :=
  ⟨by decide, claim_C9_safeTruncate_algebra.2.1 [97, 98, 99] 2 (by decide)⟩

/-- C10: a scheme-only absolute url has no host character after `//`, so
`validateUrl` rejects `http://` and `https://`, and `image` therefore
throws `ValidationError` on the non-empty string `http://`. -/
theorem claim_C10_scheme_only_rejected :
    validateUrl (some (jstr "http://")) = false ∧
    validateUrl (some (jstr "https://")) = false ∧
    isValidationErr (image (jstr "http://") (jstr "alt") none) = true := by
  exact ⟨by decide, by decide, by decide⟩

end Mack
